import Mathlib

/-
Verification development for the testrail-data-model repository.

The Python source is shallowly embedded: dictionaries from the wire format
become association lists over a small value type, the mutable object graph
(suite, sections, cases, with bidirectional references) becomes an explicit
state record with id-indexed stores, and exceptions become explicit error
values.  All definitions are translated from the source modules
(model/case.py, model/section.py, model/suite.py, builder.py, deletion.py).
-/

set_option autoImplicit false

namespace TestRail

/-- Values appearing in raw TestRail API records.  Models the subset of
Python values relevant to the embedded code paths: None, int, str.
(Python datetimes are modelled by the integer Unix timestamp they encode;
timezone/DST behaviour of the local clock is out of scope.) -/
inductive PyVal where
  | vnone : PyVal
  | vint : Int → PyVal
  | vstr : String → PyVal
deriving DecidableEq, Repr

/-- Raw record: a Python dict with string keys, modelled as an association
list (first occurrence of a key wins on lookup; real dicts have unique keys). -/
abbrev RawDict := List (String × PyVal)

/-- Lookup of a key in a raw record, as Python `data[key]` / `data.get(key)`. -/
def dlookup : RawDict → String → Option PyVal
  | [], _ => none
  | (k, v) :: t, key => if k = key then some v else dlookup t key

/-- Python dict `update`: every key of `d2` overrides `d1`. -/
def dupdate (d1 d2 : RawDict) : RawDict :=
  d1.filter (fun kv => (dlookup d2 kv.1).isNone) ++ d2

/-- Python dict equality: two dicts are equal when lookup agrees on every key
(same key set, same value at each key). -/
def dictEq (d1 d2 : RawDict) : Prop :=
  ∀ k, dlookup d1 k = dlookup d2 k

/-- Python `s.startswith(pre)`: prefix test on the character lists (kept
structurally recursive so concrete instances evaluate inside proofs). -/
def strStartsWith (s pre : String) : Bool :=
  pre.data.isPrefixOf s.data

/-- Characters split on the slash separator (Python `s.split("/")` shape). -/
def splitSlash : List Char → List (List Char)
  | [] => [[]]
  | c :: t =>
    let r := splitSlash t
    if c = '/' then [] :: r
    else
      match r with
      | [] => [[c]]
      | h :: t2 => (c :: h) :: t2

/-- Strings joined with "/" (Python `"/".join(parts)`). -/
def joinSlash : List String → String
  | [] => ""
  | [x] => x
  | x :: y :: t => x ++ "/" ++ joinSlash (y :: t)

/-- Python truthiness of the modelled values, as used by `bool(...)`. -/
def truthy : PyVal → Bool
  | .vnone => false
  | .vint n => n ≠ 0
  | .vstr s => s ≠ ""

/-- Dataclass TestRailCase (model/case.py): the fields populated by
`from_data` and consumed by `to_dict`.  `created_on`/`updated_on` hold the
Unix timestamp of the `datetime` (see `PyVal`); verbatim fields keep the raw
value unchecked, exactly as the Python dataclass stores whatever it is given. -/
structure PyCase where
  case_id : PyVal
  suite_id : PyVal
  created_by : PyVal
  created_on : Int
  priority_id : PyVal
  template_id : PyVal
  title : PyVal
  type_id : PyVal
  updated_by : PyVal
  updated_on : Int
  is_deleted : Bool
  custom_fields : RawDict
  display_order : PyVal
  estimate : PyVal
  estimate_forecast : PyVal
  section_id : PyVal
  milestone_id : PyVal
  refs : PyVal
deriving DecidableEq, Repr

/-- TestRailCase.from_data (model/case.py, lines 119-151).  A missing
mandatory key (Python KeyError) or a non-integer timestamp (Python TypeError
in `datetime.fromtimestamp`) yields `none`; `is_deleted` defaults to 0 and is
passed through `bool`, `display_order` defaults to None, and every key
prefixed `custom_` is collected verbatim. -/
def caseFromData (d : RawDict) : Option PyCase :=
  match dlookup d "id", dlookup d "suite_id", dlookup d "created_by",
        dlookup d "created_on", dlookup d "priority_id", dlookup d "template_id",
        dlookup d "title", dlookup d "type_id", dlookup d "updated_by",
        dlookup d "updated_on", dlookup d "estimate", dlookup d "estimate_forecast",
        dlookup d "section_id", dlookup d "milestone_id", dlookup d "refs" with
  | some vid, some vsuite, some vcb, some (.vint con), some vpri, some vtem,
    some vtit, some vtyp, some vub, some (.vint uon), some vest, some vef,
    some vsec, some vmil, some vrefs =>
      some {
        case_id := vid
        suite_id := vsuite
        created_by := vcb
        created_on := con
        priority_id := vpri
        template_id := vtem
        title := vtit
        type_id := vtyp
        updated_by := vub
        updated_on := uon
        is_deleted := truthy ((dlookup d "is_deleted").getD (.vint 0))
        custom_fields := d.filter (fun kv => strStartsWith kv.1 "custom_")
        display_order := (dlookup d "display_order").getD .vnone
        estimate := vest
        estimate_forecast := vef
        section_id := vsec
        milestone_id := vmil
        refs := vrefs }
  | _, _, _, _, _, _, _, _, _, _, _, _, _, _, _ => none

/-- Standard (non-custom) entries written by TestRailCase.to_dict
(model/case.py, lines 153-178), before the custom-field update. -/
def caseStdDict (c : PyCase) : RawDict :=
  [("id", c.case_id),
   ("suite_id", c.suite_id),
   ("created_by", c.created_by),
   ("created_on", .vint c.created_on),
   ("priority_id", c.priority_id),
   ("template_id", c.template_id),
   ("title", c.title),
   ("type_id", c.type_id),
   ("updated_by", c.updated_by),
   ("updated_on", .vint c.updated_on),
   ("is_deleted", .vint (if c.is_deleted then 1 else 0)),
   ("display_order", c.display_order),
   ("estimate", c.estimate),
   ("estimate_forecast", c.estimate_forecast),
   ("section_id", c.section_id),
   ("milestone_id", c.milestone_id),
   ("refs", c.refs)]

/-- TestRailCase.to_dict (model/case.py): the standard entries, then
`result.update(self.custom_fields)`. -/
def caseToDict (c : PyCase) : RawDict :=
  dupdate (caseStdDict c) c.custom_fields

/-- Key set of the standard entries of `to_dict`. -/
def stdCaseKeys : List String :=
  ["id", "suite_id", "created_by", "created_on", "priority_id", "template_id",
   "title", "type_id", "updated_by", "updated_on", "is_deleted",
   "display_order", "estimate", "estimate_forecast", "section_id",
   "milestone_id", "refs"]

/-- Errors raised by the embedded Python code. -/
inductive PyErr where
  | valueError : String → PyErr
  | attributeError : String → PyErr
deriving DecidableEq, Repr

/-- TestRailCase getattr fallback (model/case.py, lines 60-79): attribute
access for a name not declared on the dataclass resolves against the
custom-field mapping under the `custom_`-prefixed key; an empty name raises
ValueError, an absent prefixed key raises AttributeError naming that key. -/
def caseGetattr (custom_fields : RawDict) (attr : String) : Except PyErr PyVal :=
  if attr.length = 0 then
    .error (.valueError "Attribute must be non-zero length")
  else
    match dlookup custom_fields ("custom_" ++ attr) with
    | none => .error (.attributeError
        ("TestRailCase instance has no custom field: " ++ ("custom_" ++ attr)))
    | some v => .ok v

/-! Object-graph model.

The mutable object graph of model/section.py, model/case.py and
model/suite.py is embedded as a state record with id-indexed stores.  Every
collection in the source is a dict keyed by the entity's own id
(`suite.sections[self.section_id] = self`, etc.), so object identity is
proxied by the id and each object's mutable fields live in the store entry
for its id.  The scenarios in the source always involve a single suite
object, so the `suite` back-reference of a section/case is modelled by a
Bool ("points at the suite object" / "is None"). -/

/-- Mutable state of a TestRailSection object (model/section.py).
`childSections`/`childCases` are the keys of the object's `sections`/`cases`
dicts in insertion order (Python dicts preserve it; `popitem` pops the last). -/
structure SectionData where
  section_id : Nat
  suite_id : Nat
  parent_id : Option Nat
  depth : Nat
  display_order : Nat
  name : String
  suiteRef : Bool
  parentRef : Option Nat
  childSections : List Nat
  childCases : List Nat
deriving DecidableEq, Repr

/-- Mutable state of a TestRailCase object (graph-relevant fields). -/
structure CaseData where
  case_id : Nat
  suite_id : Nat
  section_id : Option Nat
  title : String
  suiteRef : Bool
  sectionRef : Option Nat
deriving DecidableEq, Repr

/-- Mutable state of the TestRailSuite object (model/suite.py):
`sections`/`cases` are the keys of its two dicts in insertion order. -/
structure SuiteData where
  suite_id : Nat
  project_id : Nat
  name : String
  sections : List Nat
  cases : List Nat
deriving DecidableEq, Repr

/-- Whole object graph: the one suite plus the stores of all section and
case objects, keyed by their ids. -/
structure Graph where
  suite : SuiteData
  secStore : List (Nat × SectionData)
  caseStore : List (Nat × CaseData)
deriving DecidableEq, Repr

/-- Association-list lookup by id (first match). -/
def alookup {α : Type} : List (Nat × α) → Nat → Option α
  | [], _ => none
  | (k, v) :: t, i => if k = i then some v else alookup t i

/-- Association-list write: update the entry for an existing id in place,
or append a new entry (Python dict assignment). -/
def aset {α : Type} : List (Nat × α) → Nat → α → List (Nat × α)
  | [], i, v => [(i, v)]
  | (k, w) :: t, i, v => if k = i then (i, v) :: t else (k, w) :: aset t i v

/-- Membership of a key in a dict's key list (Python `k in d`). -/
def memKey : List Nat → Nat → Bool
  | [], _ => false
  | k :: t, i => k = i || memKey t i

/-- Removal of a key from a dict's key list (Python `del d[k]`; dict keys
are unique, so removing the first occurrence suffices). -/
def remKey : List Nat → Nat → List Nat
  | [], _ => []
  | k :: t, i => if k = i then t else k :: remKey t i

/-- Dict assignment on the key list: existing key keeps its position, a new
key is appended at the end. -/
def addKey (l : List Nat) (i : Nat) : List Nat :=
  if memKey l i then l else l ++ [i]

/-- Store update helpers on the graph. -/
def Graph.setSec (g : Graph) (i : Nat) (s : SectionData) : Graph :=
  { g with secStore := aset g.secStore i s }

def Graph.setCase (g : Graph) (i : Nat) (c : CaseData) : Graph :=
  { g with caseStore := aset g.caseStore i c }

def Graph.findSec (g : Graph) (i : Nat) : Option SectionData :=
  alookup g.secStore i

def Graph.findCase (g : Graph) (i : Nat) : Option CaseData :=
  alookup g.caseStore i

/-- Printing of an optional id, as Python str(None)/str(int) in f-strings. -/
def optStr : Option Nat → String
  | none => "None"
  | some n => toString n

/-- TestRailSection.link (model/section.py, lines 107-131), on the section
object stored at `sid`.  Returns the raised error (if any) together with the
graph as it stands when control leaves the method: the source validates the
suite id before any mutation, but validates the parent id only after the
suite collection and both back-references have been written. -/
def sectionLink (g : Graph) (sid : Nat) (parent : Option Nat) : Option String × Graph :=
  match g.findSec sid with
  | none => (some "missing section object", g)
  | some s =>
    if s.suite_id ≠ g.suite.suite_id then
      (some ("section.suite_id (" ++ toString s.suite_id ++ ") does not match" ++
             " suite.suite_id (" ++ toString g.suite.suite_id ++ ")"), g)
    else
      let g1 : Graph :=
        { g with suite := { g.suite with sections := addKey g.suite.sections s.section_id } }
      let g2 := g1.setSec sid { s with suiteRef := true, parentRef := parent }
      match parent with
      | none => (none, g2)
      | some p =>
        match g2.findSec p with
        | none => (some "missing parent object", g2)
        | some pd =>
          if some pd.section_id ≠ s.parent_id then
            (some ("section.parent_id (" ++ optStr s.parent_id ++ ") does not match" ++
                   " parent.section_id (" ++ toString pd.section_id ++ ")"), g2)
          else
            (none, g2.setSec p { pd with childSections := addKey pd.childSections s.section_id })

/-- TestRailCase.link (model/case.py, lines 92-117), on the case object
stored at `cid`.  Same convention as `sectionLink`. -/
def caseLink (g : Graph) (cid : Nat) (sectionArg : Option Nat) : Option String × Graph :=
  match g.findCase cid with
  | none => (some "missing case object", g)
  | some c =>
    if c.suite_id ≠ g.suite.suite_id then
      (some ("case.suite_id (" ++ toString c.suite_id ++ ") does not match " ++
             "suite.suite_id (" ++ toString g.suite.suite_id ++ ")"), g)
    else
      let g1 : Graph :=
        { g with suite := { g.suite with cases := addKey g.suite.cases c.case_id } }
      let g2 := g1.setCase cid { c with suiteRef := true, sectionRef := sectionArg }
      match sectionArg with
      | none => (none, g2)
      | some sid =>
        match g2.findSec sid with
        | none => (some "missing section object", g2)
        | some sd =>
          if some sd.section_id ≠ c.section_id then
            (some ("case.section_id (" ++ optStr c.section_id ++ ") does not match " ++
                   "section.section_id (" ++ toString sd.section_id ++ ")"), g2)
          else
            (none, g2.setSec sid { sd with childCases := addKey sd.childCases c.case_id })

/-- TestRailCase.unlink (model/case.py, lines 81-90).  Each branch both
tests the back-reference and membership in the referenced collection; the
back-reference is cleared only when the membership test passes, exactly as
in the source. -/
def caseUnlink (g : Graph) (cid : Nat) : Graph :=
  match g.findCase cid with
  | none => g
  | some c =>
    let g1 : Graph :=
      if c.suiteRef && memKey g.suite.cases c.case_id then
        { g with suite := { g.suite with cases := remKey g.suite.cases c.case_id },
                 caseStore := aset g.caseStore cid { c with suiteRef := false } }
      else g
    match g1.findCase cid with
    | none => g1
    | some c1 =>
      match c1.sectionRef with
      | none => g1
      | some sid =>
        match g1.findSec sid with
        | none => g1
        | some sd =>
          if memKey sd.childCases c1.case_id then
            (g1.setSec sid { sd with childCases := remKey sd.childCases c1.case_id }).setCase
              cid { c1 with sectionRef := none }
          else g1

/-- TestRailSection.unlink (model/section.py, lines 90-105).  The two while
loops pop the last entry of the object's `sections`/`cases` dicts and unlink
it recursively; afterwards the section detaches from the suite and from its
parent (again guarded by membership, as in the source).  The recursion is
bounded by explicit fuel; `none` means the fuel ran out (a live Python run
on a finite acyclic graph always terminates). -/
def sectionUnlink : Nat → Graph → Nat → Option Graph
  | 0, _, _ => none
  | fuel + 1, g, sid =>
    match g.findSec sid with
    | none => some g
    | some s =>
      match s.childSections.getLast? with
      | some child =>
        let g1 := g.setSec sid { s with childSections := s.childSections.dropLast }
        match sectionUnlink fuel g1 child with
        | none => none
        | some g2 => sectionUnlink fuel g2 sid
      | none =>
        match s.childCases.getLast? with
        | some ccid =>
          let g1 := g.setSec sid { s with childCases := s.childCases.dropLast }
          sectionUnlink fuel (caseUnlink g1 ccid) sid
        | none =>
          let g1 : Graph :=
            if s.suiteRef && memKey g.suite.sections s.section_id then
              { g with suite := { g.suite with sections := remKey g.suite.sections s.section_id },
                       secStore := aset g.secStore sid { s with suiteRef := false } }
            else g
          match g1.findSec sid with
          | none => some g1
          | some s1 =>
            match s1.parentRef with
            | none => some g1
            | some pid =>
              match g1.findSec pid with
              | none => some g1
              | some pd =>
                if memKey pd.childSections s1.section_id then
                  some ((g1.setSec pid
                    { pd with childSections := remKey pd.childSections s1.section_id }).setSec
                      sid { s1 with parentRef := none })
                else some g1

/-- Name chain of TestRailSection.path (model/section.py, lines 66-76): the
loop collects `self.name` and walks the `parent` back-references, so the
list is ordered from the section itself up to the root. -/
def sectionPathNames : Nat → Graph → Nat → List String
  | 0, _, _ => []
  | fuel + 1, g, sid =>
    match g.findSec sid with
    | none => []
    | some s =>
      match s.parentRef with
      | none => [s.name]
      | some p => s.name :: sectionPathNames fuel g p

/-- TestRailSection.path: ancestor names from the root down, joined by "/". -/
def sectionPath (fuel : Nat) (g : Graph) (sid : Nat) : String :=
  joinSlash (sectionPathNames fuel g sid).reverse

/-- TestRailCase.path (model/case.py, lines 180-186): the section's path
when a section back-reference is set, Python None otherwise. -/
def casePath (fuel : Nat) (g : Graph) (cid : Nat) : Option String :=
  match g.findCase cid with
  | none => none
  | some c =>
    match c.sectionRef with
    | none => none
    | some sid => some (sectionPath fuel g sid)

/-- TestRailSuite.section_for_path (model/suite.py, lines 91-102): linear
scan of the suite's sections in insertion order, first path match wins. -/
def sectionForPath (fuel : Nat) (g : Graph) (path : String) : Option Nat :=
  g.suite.sections.find? (fun sid => sectionPath fuel g sid == path)

/-- TestRailSection.move (model/section.py, lines 78-88): capture the suite
back-reference, `unlink`, overwrite `parent_id` with the new parent's id,
then `link` into the captured suite with the new parent.  A section that is
not linked to a suite would make the source pass `suite=None` into `link`
and crash on `None.suite_id`; that path is modelled as an error string. -/
def sectionMove (fuel : Nat) (g : Graph) (sid : Nat) (newParent : Option Nat) :
    Option (Option String × Graph) :=
  match g.findSec sid with
  | none => some (some "missing section object", g)
  | some s =>
    if !s.suiteRef then some (some "suite is None", g)
    else
      match sectionUnlink fuel g sid with
      | none => none
      | some g1 =>
        let newParentId : Option Nat :=
          match newParent with
          | none => none
          | some p => some (((g1.findSec p).map (·.section_id)).getD p)
        match g1.findSec sid with
        | none => some (some "missing section object", g1)
        | some s1 =>
          let g2 := g1.setSec sid { s1 with parent_id := newParentId }
          some (sectionLink g2 sid newParent)

/-! Builder and deletion subsystem.

API traffic to the external TestRail collaborator is recorded in a request
log.  The collaborator itself is out of scope (spec section 6); its
responses are modelled as the service echoing the requested fields back,
with `add_section` assigning a fresh id taken from a counter. -/

/-- Requests issued to the collaborator by the embedded code paths. -/
inductive ApiReq where
  | addSection : Nat → String → Nat → Option Nat → ApiReq
  | updateCase : Nat → Nat → ApiReq
  | moveSection : Nat → Nat → ApiReq
  | delSectionReq : Nat → Bool → ApiReq
  | delCaseReq : Nat → Bool → ApiReq
deriving DecidableEq, Repr

/-- State threaded through builder/deletion operations: the object graph,
the request log, the collaborator's id counter, the `lru_cache` slot of
`MarkForDeletionHandler.to_be_deleted_sections`, and the handler's reserved
section name (`__to_be_deleted__` by default). -/
structure SysState where
  graph : Graph
  log : List ApiReq
  nextId : Nat
  cache : Option (Nat × Nat)
  tbdName : String
deriving DecidableEq, Repr

/-- Raw section record as fetched from the collaborator (the fields read by
TestRailSection.from_data, model/section.py lines 48-64). -/
structure SectionRec where
  id : Nat
  suite_id : Nat
  parent_id : Option Nat
  depth : Nat
  display_order : Nat
  name : String
deriving DecidableEq, Repr

/-- TestRailSection.from_data: a fresh unlinked section object. -/
def secFromData (r : SectionRec) : SectionData :=
  { section_id := r.id, suite_id := r.suite_id, parent_id := r.parent_id,
    depth := r.depth, display_order := r.display_order, name := r.name,
    suiteRef := false, parentRef := none, childSections := [], childCases := [] }

/-- Raw case record (graph-relevant fields of TestRailCase.from_data). -/
structure CaseRec where
  id : Nat
  suite_id : Nat
  section_id : Option Nat
  title : String
deriving DecidableEq, Repr

/-- Fresh unlinked case object from a raw record. -/
def caseRecFromData (r : CaseRec) : CaseData :=
  { case_id := r.id, suite_id := r.suite_id, section_id := r.section_id,
    title := r.title, suiteRef := false, sectionRef := none }

/-- Key list of a store, in insertion order. -/
def keysOf {α : Type} (l : List (Nat × α)) : List Nat :=
  l.map Prod.fst

/-- Linking pass of build_suite for sections: for each section in index
order, resolve the parent through the section index (`dict.get`, absent key
gives None) and call `link`; the first raised error aborts the loop. -/
def buildLinkSecs (g : Graph) (sids : List Nat) : Option String × Graph :=
  sids.foldl
    (fun acc sid =>
      match acc.1 with
      | some _ => acc
      | none =>
        match acc.2.findSec sid with
        | none => (some "missing section object", acc.2)
        | some s =>
          let parent : Option Nat :=
            match s.parent_id with
            | none => none
            | some pid => if (alookup acc.2.secStore pid).isSome then some pid else none
          sectionLink acc.2 sid parent)
    (none, g)

/-- Linking pass of build_suite for cases: resolve each case's section the
same way and call `link`. -/
def buildLinkCases (g : Graph) (cids : List Nat) : Option String × Graph :=
  cids.foldl
    (fun acc cid =>
      match acc.1 with
      | some _ => acc
      | none =>
        match acc.2.findCase cid with
        | none => (some "missing case object", acc.2)
        | some c =>
          let sec : Option Nat :=
            match c.section_id with
            | none => none
            | some sid => if (alookup acc.2.secStore sid).isSome then some sid else none
          caseLink acc.2 cid sec)
    (none, g)

/-- TestRailAPIObjectBuilder.build_suite (builder.py, lines 292-318): index
the fetched sections and cases by id, bulk-register all keys into the
suite's collections, then run the two linking passes.  The returned error is
the first exception raised by a `link` call (it propagates out of the
source method, aborting the build). -/
def buildSuite (suiteRec : SuiteData) (secRecs : List SectionRec)
    (caseRecs : List CaseRec) : Option String × Graph :=
  let secStore := secRecs.foldl (fun st r => aset st r.id (secFromData r)) []
  let caseStore := caseRecs.foldl (fun st r => aset st r.id (caseRecFromData r)) []
  let newSecKeys := (keysOf secStore).filter (fun k => !memKey suiteRec.sections k)
  let newCaseKeys := (keysOf caseStore).filter (fun k => !memKey suiteRec.cases k)
  let suite0 : SuiteData :=
    { suiteRec with sections := suiteRec.sections ++ newSecKeys,
                    cases := suiteRec.cases ++ newCaseKeys }
  let g0 : Graph := { suite := suite0, secStore := secStore, caseStore := caseStore }
  match buildLinkSecs g0 (keysOf secStore) with
  | (some e, g1) => (some e, g1)
  | (none, g1) => buildLinkCases g1 (keysOf caseStore)

/-- Python `path.rsplit("/", maxsplit=1)`, as (everything before the last
slash if any, last component). -/
def rsplit1 (s : String) : Option String × String :=
  match (splitSlash s.data).map (fun l => String.mk l) with
  | [] => (none, s)
  | [x] => (none, x)
  | x :: y :: rest =>
    (some (joinSlash ((x :: y :: rest).dropLast)),
     (x :: y :: rest).getLast (by simp))

/-- TestRailAPIObjectBuilder.create_new_section_for_path (builder.py, lines
320-341): split the path, resolve the parent section by path lookup, issue
`add_section` (the collaborator assigns the next fresh id and echoes the
requested fields), build the section via `from_data` and `link` it.
Returns (raised error, new section id, new state). -/
def createNewSectionForPath (fuel : Nat) (st : SysState) (path : String) :
    Option String × Nat × SysState :=
  let pr := rsplit1 path
  let parent : Option Nat :=
    match pr.1 with
    | none => none
    | some pp => sectionForPath fuel st.graph pp
  let parentId : Option Nat :=
    match parent with
    | none => none
    | some p => some (((st.graph.findSec p).map (·.section_id)).getD p)
  let nid := st.nextId
  let newSec : SectionData :=
    { section_id := nid, suite_id := st.graph.suite.suite_id, parent_id := parentId,
      depth := 0, display_order := 0, name := pr.2,
      suiteRef := false, parentRef := none, childSections := [], childCases := [] }
  let st1 : SysState :=
    { st with graph := st.graph.setSec nid newSec,
              nextId := nid + 1,
              log := st.log ++ [.addSection st.graph.suite.project_id pr.2
                                 st.graph.suite.suite_id parentId] }
  let lr := sectionLink st1.graph nid parent
  (lr.1, nid, { st1 with graph := lr.2 })

/-- MarkForDeletionHandler.to_be_deleted_sections (deletion.py, lines
307-325), including the `lru_cache`: on a hit nothing runs at all; on a miss
each of the two reserved paths is looked up via `section_for_path` and
created via `create_new_section_for_path` when absent, and the pair is
cached on success (an exception propagates uncached, as `lru_cache` does
not populate when the wrapped call raises). -/
def toBeDeletedSections (fuel : Nat) (st : SysState) :
    Option String × (Nat × Nat) × SysState :=
  match st.cache with
  | some pair => (none, pair, st)
  | none =>
    let p1 := st.tbdName
    let p2 := st.tbdName ++ "/sections"
    let r1 : Option String × Nat × SysState :=
      match sectionForPath fuel st.graph p1 with
      | some s => (none, s, st)
      | none => createNewSectionForPath fuel st p1
    match r1.1 with
    | some e => (some e, (r1.2.1, 0), r1.2.2)
    | none =>
      let st1 := r1.2.2
      let r2 : Option String × Nat × SysState :=
        match sectionForPath fuel st1.graph p2 with
        | some s => (none, s, st1)
        | none => createNewSectionForPath fuel st1 p2
      match r2.1 with
      | some e => (some e, (r1.2.1, r2.2.1), r2.2.2)
      | none =>
        (none, (r1.2.1, r2.2.1),
         { r2.2.2 with cache := some (r1.2.1, r2.2.1) })

/-- MarkForDeletionHandler.delete_case (deletion.py, lines 248-263): resolve
the reserved pair, issue `update_case` moving the case to the cases-holding
section, rebuild the case from the echoed response (same id, new
section_id, fresh unlinked instance), unlink the old object and link the
new one under the reserved section. -/
def markDeleteCase (fuel : Nat) (st : SysState) (cid : Nat) : Option String × SysState :=
  let r := toBeDeletedSections fuel st
  match r.1 with
  | some e => (some e, r.2.2)
  | none =>
    let tbd := r.2.1.1
    let st1 := r.2.2
    match st1.graph.findCase cid with
    | none => (some "missing case object", st1)
    | some c =>
      let tbdSecId := ((st1.graph.findSec tbd).map (·.section_id)).getD tbd
      let st2 : SysState :=
        { st1 with log := st1.log ++ [.updateCase c.case_id tbdSecId] }
      let movedCase : CaseData :=
        { c with section_id := some tbdSecId, suiteRef := false, sectionRef := none }
      let g1 := caseUnlink st2.graph cid
      let g2 := g1.setCase cid movedCase
      let lr := caseLink g2 cid (some tbd)
      (lr.1, { st2 with graph := lr.2 })

/-- MarkForDeletionHandler.delete_section (deletion.py, lines 229-246):
resolve the reserved pair, issue `move_section` re-parenting under the
sections-holding section, then perform the local `move`. -/
def markDeleteSection (fuel : Nat) (st : SysState) (sid : Nat) :
    Option (Option String × SysState) :=
  let r := toBeDeletedSections fuel st
  match r.1 with
  | some e => some (some e, r.2.2)
  | none =>
    let tbd2 := r.2.1.2
    let st1 := r.2.2
    match st1.graph.findSec sid with
    | none => some (some "missing section object", st1)
    | some s =>
      let tbd2id := ((st1.graph.findSec tbd2).map (·.section_id)).getD tbd2
      let st2 : SysState :=
        { st1 with log := st1.log ++ [.moveSection s.section_id tbd2id] }
      match sectionMove fuel st2.graph sid (some tbd2) with
      | none => none
      | some mr => some (mr.1, { st2 with graph := mr.2 })

/-- MarkForDeletionHandler.delete_cases (deletion.py, lines 286-305): one
pass over the inputs; an item whose current path already starts with the
reserved name is yielded unchanged with no remote call, any other item goes
through `delete_case`.  `none` models the run aborting with an exception
(including `case.path` being Python None, on which `.startswith` raises). -/
def markDeleteCasesRun (fuel : Nat) : SysState → List Nat → Option (List Nat × SysState)
  | st, [] => some ([], st)
  | st, cid :: rest =>
    match st.graph.findCase cid with
    | none => none
    | some _ =>
      match casePath fuel st.graph cid with
      | none => none
      | some p =>
        if strStartsWith p st.tbdName then
          match markDeleteCasesRun fuel st rest with
          | none => none
          | some (rs, st') => some (cid :: rs, st')
        else
          match markDeleteCase fuel st cid with
          | (some _, _) => none
          | (none, st1) =>
            match markDeleteCasesRun fuel st1 rest with
            | none => none
            | some (rs, st') => some (cid :: rs, st')

/-- MarkForDeletionHandler.delete_sections (deletion.py, lines 265-284):
same shape for sections (`Section.path` is always a string, so no
None-path failure mode exists here). -/
def markDeleteSecsRun (fuel : Nat) : SysState → List Nat → Option (List Nat × SysState)
  | st, [] => some ([], st)
  | st, sid :: rest =>
    match st.graph.findSec sid with
    | none => none
    | some _ =>
      let p := sectionPath fuel st.graph sid
      if strStartsWith p st.tbdName then
        match markDeleteSecsRun fuel st rest with
        | none => none
        | some (rs, st') => some (sid :: rs, st')
      else
        match markDeleteSection fuel st sid with
        | none => none
        | some (some _, _) => none
        | some (none, st1) =>
          match markDeleteSecsRun fuel st1 rest with
          | none => none
          | some (rs, st') => some (sid :: rs, st')

/-- DeletionHandler.delete_case (deletion.py, lines 158-169): issue the
delete request with the soft flag; unlink locally only when not soft. -/
def hardDeleteCase (soft : Bool) (st : SysState) (cid : Nat) : SysState :=
  let caseIdField := ((st.graph.findCase cid).map (·.case_id)).getD cid
  let st1 : SysState := { st with log := st.log ++ [.delCaseReq caseIdField soft] }
  if soft then st1 else { st1 with graph := caseUnlink st1.graph cid }

/-- DeletionHandler.delete_section (deletion.py, lines 145-156): issue the
delete request with the soft flag; unlink locally only when not soft. -/
def hardDeleteSection (fuel : Nat) (soft : Bool) (st : SysState) (sid : Nat) :
    Option SysState :=
  let sidField := ((st.graph.findSec sid).map (·.section_id)).getD sid
  let st1 : SysState := { st with log := st.log ++ [.delSectionReq sidField soft] }
  if soft then some st1
  else (sectionUnlink fuel st1.graph sid).map (fun g => { st1 with graph := g })

/-! Parametric example graphs (the spec's running example: root section A,
child section B with parent A, case C inside B) and small concrete
instances used by counterexamples and witnesses. -/

/-- Root section of the A/B/C family. -/
def famSecA (a b u : Nat) (na : String) : SectionData :=
  { section_id := a, suite_id := u, parent_id := none, depth := 0,
    display_order := 0, name := na, suiteRef := true, parentRef := none,
    childSections := [b], childCases := [] }

/-- Child section of the A/B/C family. -/
def famSecB (a b c u : Nat) (nb : String) : SectionData :=
  { section_id := b, suite_id := u, parent_id := some a, depth := 1,
    display_order := 0, name := nb, suiteRef := true, parentRef := some a,
    childSections := [], childCases := [c] }

/-- Case of the A/B/C family, living in section B. -/
def famCaseC (b c u : Nat) (t : String) : CaseData :=
  { case_id := c, suite_id := u, section_id := some b, title := t,
    suiteRef := true, sectionRef := some b }

/-- Fully linked A/B/C graph. -/
def famGraph (a b c u : Nat) (na nb t : String) : Graph :=
  { suite := { suite_id := u, project_id := 7, name := "S",
               sections := [a, b], cases := [c] },
    secStore := [(a, famSecA a b u na), (b, famSecB a b c u nb)],
    caseStore := [(c, famCaseC b c u t)] }

/-- Extra root section D, used as a move target. -/
def famSecD (d u : Nat) (nd : String) : SectionData :=
  { section_id := d, suite_id := u, parent_id := none, depth := 0,
    display_order := 0, name := nd, suiteRef := true, parentRef := none,
    childSections := [], childCases := [] }

/-- A/B/C graph extended with the spare root section D. -/
def famGraphD (a b c d u : Nat) (na nb nd t : String) : Graph :=
  { suite := { suite_id := u, project_id := 7, name := "S",
               sections := [a, b, d], cases := [c] },
    secStore := [(a, famSecA a b u na), (b, famSecB a b c u nb),
                 (d, famSecD d u nd)],
    caseStore := [(c, famCaseC b c u t)] }

/-- Concrete instance of the A/B/C graph. -/
def gABC : Graph := famGraph 1 2 10 100 "A" "B" "C"

/-- Unlinked case whose `section_id` (3) disagrees with section B (id 2). -/
def caseD : CaseData :=
  { case_id := 11, suite_id := 100, section_id := some 3, title := "D",
    suiteRef := false, sectionRef := none }

/-- Concrete graph holding the mismatched case `caseD`. -/
def gMismatch : Graph := { gABC with caseStore := aset gABC.caseStore 11 caseD }

/-- Unlinked case whose `suite_id` (999) disagrees with the suite (id 100). -/
def caseE : CaseData :=
  { case_id := 12, suite_id := 999, section_id := none, title := "E",
    suiteRef := false, sectionRef := none }

/-- Concrete graph holding the suite-mismatched case `caseE`. -/
def gSuiteMis : Graph := { gABC with caseStore := aset gABC.caseStore 12 caseE }

/-- Raw case record with every field present (is_deleted 0, display_order
null, one custom field). -/
def dFull : RawDict :=
  [("id", .vint 1), ("suite_id", .vint 2), ("created_by", .vint 3),
   ("created_on", .vint 1000), ("priority_id", .vint 4), ("template_id", .vint 5),
   ("title", .vstr "t"), ("type_id", .vint 6), ("updated_by", .vint 7),
   ("updated_on", .vint 2000), ("is_deleted", .vint 0), ("display_order", .vnone),
   ("estimate", .vnone), ("estimate_forecast", .vnone), ("section_id", .vint 8),
   ("milestone_id", .vnone), ("refs", .vnone), ("custom_foo", .vstr "bar")]

/-- The same record with the `is_deleted` key absent; `from_data` still
accepts it (`data.get("is_deleted", 0)`). -/
def dNoDel : RawDict := dFull.filter (fun kv => kv.1 ≠ "is_deleted")

/-- Placeholder case used as the `getD` fallback when naming the results of
concrete `from_data` calls. -/
def pyCaseDummy : PyCase :=
  { case_id := .vnone, suite_id := .vnone, created_by := .vnone, created_on := 0,
    priority_id := .vnone, template_id := .vnone, title := .vnone,
    type_id := .vnone, updated_by := .vnone, updated_on := 0,
    is_deleted := false, custom_fields := [], display_order := .vnone,
    estimate := .vnone, estimate_forecast := .vnone, section_id := .vnone,
    milestone_id := .vnone, refs := .vnone }

/-- Result of `from_data` on the record without the `is_deleted` key. -/
def cNoDel : PyCase := (caseFromData dNoDel).getD pyCaseDummy

/-- Result of `from_data` on the complete record `dFull`. -/
def cFull : PyCase := (caseFromData dFull).getD pyCaseDummy

/-- Empty-suite system state used by deletion-handler witnesses. -/
def stEmpty : SysState :=
  { graph := { suite := { suite_id := 100, project_id := 7, name := "S",
                          sections := [], cases := [] },
               secStore := [], caseStore := [] },
    log := [], nextId := 50, cache := none, tbdName := "__to_be_deleted__" }

/-- System state over the concrete A/B/C graph. -/
def stABC : SysState := { stEmpty with graph := gABC }

/-- State after bulk-marking case 10 of the A/B/C suite for deletion (the
reserved sections 50 and 51 have been created and the case moved). -/
def stMarked : SysState :=
  ((markDeleteCasesRun 20 stABC [10]).map Prod.snd).getD stABC

/-- Fetched section record whose `parent_id` (77) is not in the fetched set. -/
def secRecX : SectionRec :=
  { id := 5, suite_id := 100, parent_id := some 77, depth := 0,
    display_order := 0, name := "X" }

/-- Pre-link builder graph holding only the dangling-parent section 5. -/
def gDangle : Graph :=
  { suite := { suite_id := 100, project_id := 7, name := "S",
               sections := [5], cases := [] },
    secStore := [(5, secFromData secRecX)], caseStore := [] }

/-! Expected states of the reserved-pair resolution (used to state the
first-use behaviour of `to_be_deleted_sections` over an arbitrary initial
handler state). -/

/-- Cases-holding reserved section as created and linked on first use. -/
def tbdSec1 (u nid : Nat) : SectionData :=
  { section_id := nid, suite_id := u, parent_id := none, depth := 0,
    display_order := 0, name := "__to_be_deleted__", suiteRef := true,
    parentRef := none, childSections := [], childCases := [] }

/-- The cases-holding section after the sections-holding child is linked
under it. -/
def tbdSec1c (u nid : Nat) : SectionData :=
  { tbdSec1 u nid with childSections := [nid + 1] }

/-- Sections-holding reserved section as created and linked on first use. -/
def tbdSec2 (u nid : Nat) : SectionData :=
  { section_id := nid + 1, suite_id := u, parent_id := some nid, depth := 0,
    display_order := 0, name := "sections", suiteRef := true,
    parentRef := some nid, childSections := [], childCases := [] }

/-- Graph after creating the first reserved section. -/
def tbdG1 (st : SysState) : Graph :=
  { suite := { st.graph.suite with
      sections := st.graph.suite.sections ++ [st.nextId] },
    secStore := aset st.graph.secStore st.nextId
      (tbdSec1 st.graph.suite.suite_id st.nextId),
    caseStore := st.graph.caseStore }

/-- Handler state after creating the first reserved section. -/
def tbdST1 (st : SysState) : SysState :=
  { graph := tbdG1 st,
    log := st.log ++ [.addSection st.graph.suite.project_id "__to_be_deleted__"
      st.graph.suite.suite_id none],
    nextId := st.nextId + 1, cache := st.cache, tbdName := st.tbdName }

/-- Graph after creating both reserved sections. -/
def tbdG2 (st : SysState) : Graph :=
  { suite := { st.graph.suite with
      sections := (st.graph.suite.sections ++ [st.nextId]) ++ [st.nextId + 1] },
    secStore := aset (aset (aset st.graph.secStore st.nextId
        (tbdSec1 st.graph.suite.suite_id st.nextId))
      (st.nextId + 1) (tbdSec2 st.graph.suite.suite_id st.nextId))
      st.nextId (tbdSec1c st.graph.suite.suite_id st.nextId),
    caseStore := st.graph.caseStore }

/-- Handler state after creating both reserved sections (cache not yet
populated). -/
def tbdST2 (st : SysState) : SysState :=
  { graph := tbdG2 st,
    log := (st.log ++ [.addSection st.graph.suite.project_id "__to_be_deleted__"
        st.graph.suite.suite_id none]) ++
      [.addSection st.graph.suite.project_id "sections"
        st.graph.suite.suite_id (some st.nextId)],
    nextId := st.nextId + 2, cache := st.cache, tbdName := st.tbdName }

/-! Helper lemmas. -/

theorem alookup_aset_self {α : Type} (l : List (Nat × α)) (k : Nat) (v : α) :
    alookup (aset l k v) k = some v := by
  induction l with
  | nil => simp [aset, alookup]
  | cons p t ih =>
    obtain ⟨k', w⟩ := p
    by_cases h : k' = k <;> simp [aset, alookup, h, ih]

theorem alookup_aset_ne {α : Type} (l : List (Nat × α)) (k k' : Nat) (v : α)
    (h : k' ≠ k) : alookup (aset l k v) k' = alookup l k' := by
  induction l with
  | nil => simp [aset, alookup, Ne.symm h]
  | cons p t ih =>
    obtain ⟨k'', w⟩ := p
    by_cases h2 : k'' = k
    · subst h2
      simp [aset, alookup, Ne.symm h]
    · simp [aset, alookup, h2, ih]

theorem memKey_eq_false_iff (l : List Nat) (i : Nat) :
    memKey l i = false ↔ i ∉ l := by
  induction l with
  | nil => simp [memKey]
  | cons k t ih =>
    by_cases h : k = i
    · subst h
      simp [memKey]
    · simp [memKey, h, ih, Ne.symm h]

theorem addKey_of_not_mem (l : List Nat) (i : Nat) (h : memKey l i = false) :
    addKey l i = l ++ [i] := by
  simp [addKey, h]

theorem alookup_mem {α : Type} (l : List (Nat × α)) (k : Nat) (v : α)
    (h : alookup l k = some v) : (k, v) ∈ l := by
  induction l with
  | nil => simp [alookup] at h
  | cons p t ih =>
    obtain ⟨k', w⟩ := p
    by_cases hk : k' = k
    · subst hk
      simp [alookup] at h
      simp [h]
    · simp [alookup, hk] at h
      simp [ih h]

theorem aset_aset_same {α : Type} (l : List (Nat × α)) (k : Nat) (a b : α) :
    aset (aset l k a) k b = aset l k b := by
  induction l with
  | nil => simp [aset]
  | cons p t ih =>
    obtain ⟨k', w⟩ := p
    by_cases hk : k' = k <;> simp [aset, hk, ih]

theorem memKey_append (l1 l2 : List Nat) (i : Nat) :
    memKey (l1 ++ l2) i = (memKey l1 i || memKey l2 i) := by
  induction l1 with
  | nil => simp [memKey]
  | cons k t ih => by_cases hk : k = i <;> simp [memKey, hk, ih]

theorem pathNames_fresh (g g' : Graph) (n : Nat) (X : SectionData)
    (hstore : g'.secStore = aset g.secStore n X)
    (hfresh : alookup g.secStore n = none)
    (hrefs : ∀ p ∈ g.secStore, p.2.parentRef ≠ some n) :
    ∀ (fuel : Nat) (sid : Nat), sid ≠ n →
      sectionPathNames fuel g' sid = sectionPathNames fuel g sid := by
  intro fuel
  induction fuel with
  | zero => intro sid _; rfl
  | succ f ih =>
    intro sid hsid
    have hlk : g'.findSec sid = g.findSec sid := by
      simp only [Graph.findSec, hstore]
      exact alookup_aset_ne _ _ _ _ hsid
    cases hs : g.findSec sid with
    | none => simp [sectionPathNames, hlk, hs]
    | some s =>
      cases hpar : s.parentRef with
      | none => simp [sectionPathNames, hlk, hs, hpar]
      | some p =>
        have hpn : p ≠ n := by
          intro hpn
          subst hpn
          exact hrefs (sid, s) (alookup_mem _ _ _ hs) (by simp [hpar])
        simp [sectionPathNames, hlk, hs, hpar, ih p hpn]

theorem memKey_remKey_self (l : List Nat) (i : Nat) (h : l.Nodup) :
    memKey (remKey l i) i = false := by
  induction l with
  | nil => simp [remKey, memKey]
  | cons k t ih =>
    rcases List.nodup_cons.mp h with ⟨hk, ht⟩
    by_cases h2 : k = i
    · subst h2
      simpa [remKey, memKey_eq_false_iff] using hk
    · simp [remKey, memKey, h2, ih ht]

/-! Claim C8. -/

/-- C8: attribute access on a Case for an undeclared name resolves to the
stored `custom_`-prefixed entry of the custom-field mapping; an empty name
raises ValueError, an absent entry raises AttributeError whose message names
the fully prefixed field, and the two failure kinds are distinct error
constructors. -/
theorem c8_case_custom_attribute_access (cf : RawDict) (attr : String) :
    (attr = "" →
      caseGetattr cf attr = .error (.valueError "Attribute must be non-zero length"))
    ∧ (attr ≠ "" → dlookup cf ("custom_" ++ attr) = none →
      caseGetattr cf attr = .error (.attributeError
        ("TestRailCase instance has no custom field: " ++ ("custom_" ++ attr))))
    ∧ (∀ v, attr ≠ "" → dlookup cf ("custom_" ++ attr) = some v →
      caseGetattr cf attr = .ok v) := by
  have hempty : attr.length = 0 → attr = "" := by
    intro hh
    cases attr with
    | mk data =>
      cases data with
      | nil => rfl
      | cons a l => simp [String.length] at hh
  refine ⟨?_, ?_, ?_⟩
  · intro h
    subst h
    rfl
  · intro h hl
    have hlen : ¬ attr.length = 0 := fun hh => h (hempty hh)
    simp [caseGetattr, hlen, hl]
  · intro v h hl
    have hlen : ¬ attr.length = 0 := fun hh => h (hempty hh)
    simp [caseGetattr, hlen, hl]

/-- C8 witness: the three behaviours at a concrete custom-field mapping. -/
theorem c8_witness :
    caseGetattr [("custom_foo", PyVal.vstr "bar")] "" =
      .error (.valueError "Attribute must be non-zero length") ∧
    caseGetattr [("custom_foo", PyVal.vstr "bar")] "baz" =
      .error (.attributeError
        ("TestRailCase instance has no custom field: " ++ ("custom_" ++ "baz"))) ∧
    caseGetattr [("custom_foo", PyVal.vstr "bar")] "foo" = .ok (.vstr "bar") :=
  ⟨(c8_case_custom_attribute_access [("custom_foo", PyVal.vstr "bar")] "").1 rfl,
   (c8_case_custom_attribute_access [("custom_foo", PyVal.vstr "bar")] "baz").2.1
     (by decide) (by decide),
   (c8_case_custom_attribute_access [("custom_foo", PyVal.vstr "bar")] "foo").2.2
     (.vstr "bar") (by decide) (by decide)⟩

/-! Claim C10. -/

/-- C10: a Case whose `section` back-reference is None has `path = None`
(not a string), and the bulk mark-for-deletion pass aborts on such a case
(the Python `None.startswith` attribute error), so the path check is only
well-defined for cases linked to a section. -/
theorem c10_unlinked_case_path_none (fuel : Nat) (g : Graph) (cid : Nat)
    (c : CaseData) (hc : g.findCase cid = some c) (hs : c.sectionRef = none) :
    casePath fuel g cid = none ∧
    ∀ (st : SysState) (rest : List Nat), st.graph = g →
      markDeleteCasesRun fuel st (cid :: rest) = none := by
  have hp : casePath fuel g cid = none := by
    simp [casePath, hc, hs]
  refine ⟨hp, ?_⟩
  intro st rest hst
  simp [markDeleteCasesRun, hst, hc, hp]

/-- C10 witness: the concrete unlinked case 11 of `gMismatch`. -/
theorem c10_witness :
    gMismatch.findCase 11 = some caseD ∧ caseD.sectionRef = none ∧
    casePath 5 gMismatch 11 = none ∧
    markDeleteCasesRun 5 { stEmpty with graph := gMismatch } [11] = none := by
  refine ⟨by decide, by decide, ?_, ?_⟩
  · exact (c10_unlinked_case_path_none 5 gMismatch 11 caseD (by decide) (by decide)).1
  · exact (c10_unlinked_case_path_none 5 gMismatch 11 caseD (by decide) (by decide)).2
      { stEmpty with graph := gMismatch } [] rfl

/-! Claim C1. -/

/-- C1 counterexample: linking case 11 (whose `section_id` is 3) against
section 2 raises the error naming both ids, yet the graph is already
mutated when the error propagates (the case sits in the suite collection
and its back-references are set) — linking is not all-or-nothing. -/
theorem c1_counterexample :
    (caseLink gMismatch 11 (some 2)).1 =
      some "case.section_id (3) does not match section.section_id (2)" ∧
    (caseLink gMismatch 11 (some 2)).2 ≠ gMismatch := by
  decide

/-- C1 amended: every failing `link` raises an error naming both mismatched
ids; a suite-id mismatch (the first check) is raised before any mutation,
while a parent-id/section-id mismatch (the second check) is raised only
after the child has been registered in the suite collection and its
back-references set — the parent's/section's own collection stays
untouched.  Both Section.link and Case.link behave this way. -/
theorem c1_link_validation_amended (g : Graph) :
    (∀ sid s parent, g.findSec sid = some s → s.suite_id ≠ g.suite.suite_id →
      sectionLink g sid parent =
        (some ("section.suite_id (" ++ toString s.suite_id ++ ") does not match" ++
               " suite.suite_id (" ++ toString g.suite.suite_id ++ ")"), g)) ∧
    (∀ cid c sectionArg, g.findCase cid = some c → c.suite_id ≠ g.suite.suite_id →
      caseLink g cid sectionArg =
        (some ("case.suite_id (" ++ toString c.suite_id ++ ") does not match " ++
               "suite.suite_id (" ++ toString g.suite.suite_id ++ ")"), g)) ∧
    (∀ sid s p pd, g.findSec sid = some s → s.suite_id = g.suite.suite_id →
      p ≠ sid → g.findSec p = some pd → some pd.section_id ≠ s.parent_id →
      sectionLink g sid (some p) =
        (some ("section.parent_id (" ++ optStr s.parent_id ++ ") does not match" ++
               " parent.section_id (" ++ toString pd.section_id ++ ")"),
         Graph.setSec
           { g with suite := { g.suite with sections := addKey g.suite.sections s.section_id } }
           sid { s with suiteRef := true, parentRef := some p }) ∧
      (sectionLink g sid (some p)).2.findSec p = some pd) ∧
    (∀ cid c sid sd, g.findCase cid = some c → c.suite_id = g.suite.suite_id →
      g.findSec sid = some sd → some sd.section_id ≠ c.section_id →
      caseLink g cid (some sid) =
        (some ("case.section_id (" ++ optStr c.section_id ++ ") does not match " ++
               "section.section_id (" ++ toString sd.section_id ++ ")"),
         Graph.setCase
           { g with suite := { g.suite with cases := addKey g.suite.cases c.case_id } }
           cid { c with suiteRef := true, sectionRef := some sid }) ∧
      (caseLink g cid (some sid)).2.findSec sid = some sd) := by
  refine ⟨?_, ?_, ?_, ?_⟩
  · intro sid s parent hs hmis
    simp [sectionLink, hs, hmis]
  · intro cid c sectionArg hc hmis
    simp [caseLink, hc, hmis]
  · intro sid s p pd hs hok hne hp hmis
    have hs0 : alookup g.secStore sid = some s := hs
    have hp0 : alookup g.secStore p = some pd := hp
    have hp2 : alookup (aset g.secStore sid
        { s with suiteRef := true, parentRef := some p }) p = some pd := by
      rw [alookup_aset_ne _ _ _ _ hne]
      exact hp0
    rw [hok] at hp2
    have hmain : sectionLink g sid (some p) =
        (some ("section.parent_id (" ++ optStr s.parent_id ++ ") does not match" ++
               " parent.section_id (" ++ toString pd.section_id ++ ")"),
         Graph.setSec
           { g with suite := { g.suite with sections := addKey g.suite.sections s.section_id } }
           sid { s with suiteRef := true, parentRef := some p }) := by
      simp [sectionLink, hs0, hok, Graph.setSec, Graph.findSec, hp2, hmis]
    refine ⟨hmain, ?_⟩
    rw [hmain]
    simpa [Graph.setSec, Graph.findSec, hok] using hp2
  · intro cid c sid sd hc hok hsec hmis
    have hc0 : alookup g.caseStore cid = some c := hc
    have hsec0 : alookup g.secStore sid = some sd := hsec
    have hmain : caseLink g cid (some sid) =
        (some ("case.section_id (" ++ optStr c.section_id ++ ") does not match " ++
               "section.section_id (" ++ toString sd.section_id ++ ")"),
         Graph.setCase
           { g with suite := { g.suite with cases := addKey g.suite.cases c.case_id } }
           cid { c with suiteRef := true, sectionRef := some sid }) := by
      simp [caseLink, hc, hc0, hok, Graph.setCase, Graph.findCase, Graph.findSec,
            hsec0, hmis]
    refine ⟨hmain, ?_⟩
    rw [hmain]
    simpa [Graph.setCase, Graph.findSec] using hsec0

/-- C1 witness: the amended theorem at the two concrete mismatch graphs —
a suite-id mismatch leaves the graph untouched, a section-id mismatch
reports both ids with the suite collection already updated and section 2's
own collection untouched. -/
theorem c1_witness :
    caseLink gSuiteMis 12 none =
      (some ("case.suite_id (" ++ toString caseE.suite_id ++ ") does not match " ++
             "suite.suite_id (" ++ toString gSuiteMis.suite.suite_id ++ ")"), gSuiteMis) ∧
    caseLink gMismatch 11 (some 2) =
      (some ("case.section_id (" ++ optStr caseD.section_id ++ ") does not match " ++
             "section.section_id (" ++ toString (famSecB 1 2 10 100 "B").section_id ++ ")"),
       Graph.setCase
         { gMismatch with suite :=
             { gMismatch.suite with cases := addKey gMismatch.suite.cases caseD.case_id } }
         11 { caseD with suiteRef := true, sectionRef := some 2 }) ∧
    (caseLink gMismatch 11 (some 2)).2.findSec 2 = some (famSecB 1 2 10 100 "B") := by
  refine ⟨?_, ?_, ?_⟩
  · exact (c1_link_validation_amended gSuiteMis).2.1 12 caseE none (by decide) (by decide)
  · exact ((c1_link_validation_amended gMismatch).2.2.2 11 caseD 2 (famSecB 1 2 10 100 "B")
      (by decide) (by decide) (by decide) (by decide)).1
  · exact ((c1_link_validation_amended gMismatch).2.2.2 11 caseD 2 (famSecB 1 2 10 100 "B")
      (by decide) (by decide) (by decide) (by decide)).2

/-! Claim C3. -/

/-- C3: unlinking a linked Section recursively unlinks its descendant
sections and cases before detaching itself — over the whole family of
suite graphs with root section `a`, child section `b` (parent `a`) and
case `c` (section `b`), unlinking `a` empties the suite's `sections` and
`cases` collections, with the descendants detached from the suite (their
suite back-references cleared). -/
theorem c3_unlink_cascades (a b c u : Nat) (na nb t : String) (hab : a ≠ b) :
    (sectionUnlink 10 (famGraph a b c u na nb t) a).map
      (fun g => (g.suite.sections, g.suite.cases,
        (g.findSec b).map (fun s => s.suiteRef),
        (g.findCase c).map (fun x => x.suiteRef))) =
    some ([], [], some false, some false) := by
  simp [sectionUnlink, famGraph, famSecA, famSecB, famCaseC, caseUnlink,
        alookup, aset, memKey, remKey, addKey, Graph.setSec, Graph.setCase,
        Graph.findSec, Graph.findCase, hab, Ne.symm hab]

/-- C3 witness: the concrete A/B/C instance. -/
theorem c3_witness :
    (1 : Nat) ≠ 2 ∧
    (sectionUnlink 10 (famGraph 1 2 10 100 "A" "B" "C") 1).map
      (fun g => (g.suite.sections, g.suite.cases,
        (g.findSec 2).map (fun s => s.suiteRef),
        (g.findCase 10).map (fun x => x.suiteRef))) =
    some ([], [], some false, some false) :=
  ⟨by decide, c3_unlink_cascades 1 2 10 100 "A" "B" "C" (by decide)⟩

/-! Claim C9. -/

/-- C9: `move` relinks only the section itself — since it is implemented as
the cascading `unlink` followed by `link`, moving root `a` (with child
section `b` and case `c` underneath) under the spare root `d` leaves `a`
with empty child collections, drops `b` and `c` from the suite's
collections entirely (they are not re-attached), and registers only `a`
under the new parent. -/
theorem c9_move_drops_subtree (a b c d u : Nat) (na nb nd t : String)
    (hab : a ≠ b) (had : a ≠ d) (hbd : b ≠ d) :
    (sectionMove 10 (famGraphD a b c d u na nb nd t) a (some d)).map
      (fun r => (r.1, r.2.suite.sections, r.2.suite.cases,
        (r.2.findSec a).map (fun s => (s.childSections, s.childCases)),
        (r.2.findSec d).map (fun s => s.childSections))) =
    some (none, [d, a], [], some ([], []), some [a]) := by
  simp [sectionMove, sectionUnlink, sectionLink, famGraphD, famSecA, famSecB,
        famSecD, famCaseC, caseUnlink, alookup, aset, memKey, remKey, addKey,
        Graph.setSec, Graph.setCase, Graph.findSec, Graph.findCase,
        hab, had, hbd, Ne.symm hab, Ne.symm had, Ne.symm hbd]

/-- C9 witness: the concrete instance with ids 1, 2, 10, 3. -/
theorem c9_witness :
    ((1 : Nat) ≠ 2 ∧ (1 : Nat) ≠ 3 ∧ (2 : Nat) ≠ 3) ∧
    (sectionMove 10 (famGraphD 1 2 10 3 100 "A" "B" "D" "C") 1 (some 3)).map
      (fun r => (r.1, r.2.suite.sections, r.2.suite.cases,
        (r.2.findSec 1).map (fun s => (s.childSections, s.childCases)),
        (r.2.findSec 3).map (fun s => s.childSections))) =
    some (none, [3, 1], [], some ([], []), some [1]) :=
  ⟨by decide, c9_move_drops_subtree 1 2 10 3 100 "A" "B" "D" "C"
    (by decide) (by decide) (by decide)⟩

/-! Claim C6. -/

/-- C6: through the hard/soft DeletionHandler, soft=true leaves the local
graph completely untouched (section and case alike), while soft=false
unlinks the deleted entity: a linked case is removed from the suite's and
its section's collections with both back-references cleared, and a linked
section (family with parent `a`, target `b`, contained case `c`) is removed
from the suite's collection and its parent's collection with suite and
parent back-references cleared. -/
theorem c6_hard_soft_deletion_frame :
    (∀ (fuel : Nat) (st : SysState) (sid : Nat),
      (hardDeleteSection fuel true st sid).map (fun s => s.graph) = some st.graph) ∧
    (∀ (st : SysState) (cid : Nat), (hardDeleteCase true st cid).graph = st.graph) ∧
    (∀ (st : SysState) (cid sid : Nat) (c : CaseData) (sd : SectionData),
      st.graph.findCase cid = some c → c.case_id = cid → c.suiteRef = true →
      memKey st.graph.suite.cases cid = true → c.sectionRef = some sid →
      st.graph.findSec sid = some sd → memKey sd.childCases cid = true →
      (hardDeleteCase false st cid).graph.findCase cid =
          some { c with suiteRef := false, sectionRef := none } ∧
      (hardDeleteCase false st cid).graph.suite.cases =
          remKey st.graph.suite.cases cid ∧
      (hardDeleteCase false st cid).graph.findSec sid =
          some { sd with childCases := remKey sd.childCases cid } ∧
      (st.graph.suite.cases.Nodup →
        memKey (hardDeleteCase false st cid).graph.suite.cases cid = false)) ∧
    (∀ (st : SysState) (a b c u : Nat) (na nb t : String),
      st.graph = famGraph a b c u na nb t → a ≠ b →
      (hardDeleteSection 10 false st b).map
        (fun s' => (s'.graph.suite.sections, s'.graph.suite.cases,
          (s'.graph.findSec b).map (fun x => (x.suiteRef, x.parentRef)),
          (s'.graph.findSec a).map (fun x => x.childSections))) =
      some ([a], [], some (false, none), some [])) := by
  refine ⟨?_, ?_, ?_, ?_⟩
  · intro fuel st sid
    simp [hardDeleteSection]
  · intro st cid
    simp [hardDeleteCase]
  · intro st cid sid c sd hc hkey hsref hmem hsec hsd hmemc
    have hc0 : alookup st.graph.caseStore cid = some c := hc
    have hsd0 : alookup st.graph.secStore sid = some sd := hsd
    refine ⟨?_, ?_, ?_, ?_⟩
    · simp [hardDeleteCase, caseUnlink, Graph.findCase, Graph.findSec,
            Graph.setCase, Graph.setSec, hc0, hkey, hsref, hmem, hsec, hsd0,
            hmemc, alookup_aset_self]
    · simp [hardDeleteCase, caseUnlink, Graph.findCase, Graph.findSec,
            Graph.setCase, Graph.setSec, hc0, hkey, hsref, hmem, hsec, hsd0,
            hmemc, alookup_aset_self]
    · simp [hardDeleteCase, caseUnlink, Graph.findCase, Graph.findSec,
            Graph.setCase, Graph.setSec, hc0, hkey, hsref, hmem, hsec, hsd0,
            hmemc, alookup_aset_self]
    · intro hnd
      have hrem : (hardDeleteCase false st cid).graph.suite.cases =
          remKey st.graph.suite.cases cid := by
        simp [hardDeleteCase, caseUnlink, Graph.findCase, Graph.findSec,
              Graph.setCase, Graph.setSec, hc0, hkey, hsref, hmem, hsec, hsd0,
              hmemc, alookup_aset_self]
      rw [hrem]
      exact memKey_remKey_self _ _ hnd
  · intro st a b c u na nb t hst hab
    simp [hardDeleteSection, hst, sectionUnlink, famGraph, famSecA, famSecB,
          famCaseC, caseUnlink, alookup, aset, memKey, remKey, addKey,
          Graph.setSec, Graph.setCase, Graph.findSec, Graph.findCase,
          hab, Ne.symm hab]

/-- C6 witness: at the concrete A/B/C state — soft deletion of section 2
and case 10 leave the graph untouched; hard deletion of case 10 and of
section 2 remove them from every collection and clear their back-refs. -/
theorem c6_witness :
    (hardDeleteSection 10 true stABC 2).map (fun s => s.graph) = some stABC.graph ∧
    (hardDeleteCase true stABC 10).graph = stABC.graph ∧
    (hardDeleteCase false stABC 10).graph.findCase 10 =
      some { famCaseC 2 10 100 "C" with suiteRef := false, sectionRef := none } ∧
    memKey (hardDeleteCase false stABC 10).graph.suite.cases 10 = false ∧
    (hardDeleteSection 10 false stABC 2).map
      (fun s' => (s'.graph.suite.sections, s'.graph.suite.cases,
        (s'.graph.findSec 2).map (fun x => (x.suiteRef, x.parentRef)),
        (s'.graph.findSec 1).map (fun x => x.childSections))) =
      some ([1], [], some (false, none), some []) := by
  refine ⟨c6_hard_soft_deletion_frame.1 10 stABC 2,
          c6_hard_soft_deletion_frame.2.1 stABC 10, ?_, ?_, ?_⟩
  · exact (c6_hard_soft_deletion_frame.2.2.1 stABC 10 2 (famCaseC 2 10 100 "C")
      (famSecB 1 2 10 100 "B") (by decide) (by decide) (by decide) (by decide)
      (by decide) (by decide) (by decide)).1
  · exact (c6_hard_soft_deletion_frame.2.2.1 stABC 10 2 (famCaseC 2 10 100 "C")
      (famSecB 1 2 10 100 "B") (by decide) (by decide) (by decide) (by decide)
      (by decide) (by decide) (by decide)).2.2.2 (by decide)
  · exact c6_hard_soft_deletion_frame.2.2.2 stABC 1 2 10 100 "A" "B" "C" rfl
      (by decide)

/-! Claim C4. -/

/-- Bulk case marking yields exactly its input items, in order. -/
theorem markCasesRun_yields_inputs (fuel : Nat) (items : List Nat) :
    ∀ (st : SysState) (rs : List Nat) (st' : SysState),
      markDeleteCasesRun fuel st items = some (rs, st') → rs = items := by
  induction items with
  | nil =>
    intro st rs st' h
    simp [markDeleteCasesRun] at h
    exact h.1
  | cons cid rest ih =>
    intro st rs st' h
    simp only [markDeleteCasesRun] at h
    cases hc : st.graph.findCase cid with
    | none => simp [hc] at h
    | some c =>
      simp only [hc] at h
      cases hpth : casePath fuel st.graph cid with
      | none => simp [hpth] at h
      | some p =>
        simp only [hpth] at h
        cases hsw : strStartsWith p st.tbdName with
        | true =>
          simp only [hsw, if_pos] at h
          cases hrec : markDeleteCasesRun fuel st rest with
          | none => simp [hrec] at h
          | some pr =>
            obtain ⟨rs0, st0⟩ := pr
            simp [hrec] at h
            rw [← h.1, ih st rs0 st0 hrec]
        | false =>
          simp only [hsw] at h
          simp at h
          cases hmd : markDeleteCase fuel st cid with
          | mk e st1 =>
            cases e with
            | some err => simp [hmd] at h
            | none =>
              simp only [hmd] at h
              cases hrec : markDeleteCasesRun fuel st1 rest with
              | none => simp [hrec] at h
              | some pr =>
                obtain ⟨rs0, st0⟩ := pr
                simp [hrec] at h
                rw [← h.1, ih st1 rs0 st0 hrec]

/-- Bulk section marking yields exactly its input items, in order. -/
theorem markSecsRun_yields_inputs (fuel : Nat) (items : List Nat) :
    ∀ (st : SysState) (rs : List Nat) (st' : SysState),
      markDeleteSecsRun fuel st items = some (rs, st') → rs = items := by
  induction items with
  | nil =>
    intro st rs st' h
    simp [markDeleteSecsRun] at h
    exact h.1
  | cons sid rest ih =>
    intro st rs st' h
    simp only [markDeleteSecsRun] at h
    cases hc : st.graph.findSec sid with
    | none => simp [hc] at h
    | some s =>
      simp only [hc] at h
      cases hsw : strStartsWith (sectionPath fuel st.graph sid) st.tbdName with
      | true =>
        simp only [hsw, if_pos] at h
        cases hrec : markDeleteSecsRun fuel st rest with
        | none => simp [hrec] at h
        | some pr =>
          obtain ⟨rs0, st0⟩ := pr
          simp [hrec] at h
          rw [← h.1, ih st rs0 st0 hrec]
      | false =>
        simp only [hsw] at h
        simp at h
        cases hmd : markDeleteSection fuel st sid with
        | none => simp [hmd] at h
        | some pr0 =>
          obtain ⟨e, st1⟩ := pr0
          cases e with
          | some err => simp [hmd] at h
          | none =>
            simp only [hmd] at h
            cases hrec : markDeleteSecsRun fuel st1 rest with
            | none => simp [hrec] at h
            | some pr =>
              obtain ⟨rs0, st0⟩ := pr
              simp [hrec] at h
              rw [← h.1, ih st1 rs0 st0 hrec]

/-- C4: in the bulk mark-for-deletion operations, an item whose current
path already starts with the reserved holding name is skipped — no remote
call is issued and it is passed through with the handler state unchanged —
so marking the same case twice is idempotent (the second pass over a marked
case returns the case and the state untouched), and a successful bulk run
yields exactly one result per input, in input order. -/
theorem c4_bulk_marking_skips_and_orders :
    (∀ (fuel : Nat) (st : SysState) (cid : Nat) (p : String) (rest : List Nat),
      (st.graph.findCase cid).isSome = true →
      casePath fuel st.graph cid = some p →
      strStartsWith p st.tbdName = true →
      markDeleteCasesRun fuel st (cid :: rest) =
        (markDeleteCasesRun fuel st rest).map (fun r => (cid :: r.1, r.2))) ∧
    (∀ (fuel : Nat) (st : SysState) (cid : Nat) (p : String),
      (st.graph.findCase cid).isSome = true →
      casePath fuel st.graph cid = some p →
      strStartsWith p st.tbdName = true →
      markDeleteCasesRun fuel st [cid] = some ([cid], st)) ∧
    (∀ (fuel : Nat) (st : SysState) (sid : Nat) (rest : List Nat),
      (st.graph.findSec sid).isSome = true →
      strStartsWith (sectionPath fuel st.graph sid) st.tbdName = true →
      markDeleteSecsRun fuel st (sid :: rest) =
        (markDeleteSecsRun fuel st rest).map (fun r => (sid :: r.1, r.2))) ∧
    (∀ (fuel : Nat) (st : SysState) (items rs : List Nat) (st' : SysState),
      markDeleteCasesRun fuel st items = some (rs, st') → rs = items) ∧
    (∀ (fuel : Nat) (st : SysState) (items rs : List Nat) (st' : SysState),
      markDeleteSecsRun fuel st items = some (rs, st') → rs = items) := by
  refine ⟨?_, ?_, ?_, ?_, ?_⟩
  · intro fuel st cid p rest hsome hp hstart
    obtain ⟨c, hc⟩ := Option.isSome_iff_exists.mp hsome
    cases hrec : markDeleteCasesRun fuel st rest <;>
      simp [markDeleteCasesRun, hc, hp, hstart, hrec]
  · intro fuel st cid p hsome hp hstart
    obtain ⟨c, hc⟩ := Option.isSome_iff_exists.mp hsome
    simp [markDeleteCasesRun, hc, hp, hstart]
  · intro fuel st sid rest hsome hstart
    obtain ⟨s, hc⟩ := Option.isSome_iff_exists.mp hsome
    cases hrec : markDeleteSecsRun fuel st rest <;>
      simp [markDeleteSecsRun, hc, hstart, hrec]
  · intro fuel st items rs st' h
    exact markCasesRun_yields_inputs fuel items st rs st' h
  · intro fuel st items rs st' h
    exact markSecsRun_yields_inputs fuel items st rs st' h

/-- C4 witness: concrete double-marking — marking case 10 again after it
was marked (its path is now the reserved name) passes it through with
state and request log untouched; the already-marked reserved section 50
is likewise skipped; and a bulk run over [10, 10] yields [10, 10]. -/
theorem c4_witness :
    (stMarked.graph.findCase 10).isSome = true ∧
    casePath 20 stMarked.graph 10 = some "__to_be_deleted__" ∧
    strStartsWith "__to_be_deleted__" stMarked.tbdName = true ∧
    markDeleteCasesRun 20 stMarked [10] = some ([10], stMarked) ∧
    markDeleteSecsRun 20 stMarked [50] = some ([50], stMarked) ∧
    (markDeleteCasesRun 20 stABC [10, 10]).map Prod.fst = some [10, 10] := by
  refine ⟨by decide, by decide, by decide, ?_, ?_, ?_⟩
  · exact c4_bulk_marking_skips_and_orders.2.1 20 stMarked 10 "__to_be_deleted__"
      (by decide) (by decide) (by decide)
  · rw [c4_bulk_marking_skips_and_orders.2.2.1 20 stMarked 50 []
      (by decide) (by decide)]
    rfl
  · cases hrec : markDeleteCasesRun 20 stABC [10, 10] with
    | none => exact absurd hrec (by decide)
    | some pr =>
      have := c4_bulk_marking_skips_and_orders.2.2.2.1 20 stABC [10, 10]
        pr.1 pr.2 (by rw [hrec])
      simp [this]

/-! Claim C7. -/

/-- C7: in build_suite's linking pass, a Section whose declared `parent_id`
is absent from the fetched section index resolves its parent to None and is
linked as a root (suite back-reference set, parent back-reference none)
without raising — stated for the linking step over any builder state, and
end to end for a one-section build whose parent id dangles. -/
theorem c7_dangling_parent_linked_as_root :
    (∀ (g : Graph) (sid : Nat) (s : SectionData),
      g.findSec sid = some s → s.suite_id = g.suite.suite_id →
      (∀ pid, s.parent_id = some pid → alookup g.secStore pid = none) →
      (buildLinkSecs g [sid]).1 = none ∧
      (buildLinkSecs g [sid]).2.findSec sid =
        some { s with suiteRef := true, parentRef := none }) ∧
    (∀ (pid : Nat) (sr : SuiteData) (r : SectionRec),
      sr.sections = [] → sr.cases = [] → r.suite_id = sr.suite_id →
      r.parent_id = some pid → pid ≠ r.id →
      (buildSuite sr [r] []).1 = none ∧
      ((buildSuite sr [r] []).2.findSec r.id).map
        (fun s => (s.parentRef, s.suiteRef)) = some (none, true)) := by
  constructor
  · intro g sid s hs hok hdangle
    have hs0 : alookup g.secStore sid = some s := hs
    have hparent : (match s.parent_id with
        | none => none
        | some pid => if (alookup g.secStore pid).isSome then some pid else none) =
        (none : Option Nat) := by
      cases hpar : s.parent_id with
      | none => rfl
      | some pid => simp [hdangle pid hpar]
    constructor
    · simp [buildLinkSecs, hs, hs0, hparent, sectionLink, hok, Graph.findSec,
            Graph.setSec]
    · simp [buildLinkSecs, hs, hs0, hparent, sectionLink, hok, Graph.findSec,
            Graph.setSec, alookup_aset_self]
  · intro pid sr r hsecs hcases hsu hpar hne
    constructor <;>
      simp [buildSuite, buildLinkSecs, buildLinkCases, secFromData, sectionLink,
            aset, alookup, memKey, addKey, keysOf, Graph.findSec, Graph.setSec,
            hsu, hpar, hsecs, hcases, Ne.symm hne, alookup_aset_self]

/-- C7 witness: the concrete section record 5 with dangling parent 77. -/
theorem c7_witness :
    ((buildLinkSecs gDangle [5]).1 = none ∧
      (buildLinkSecs gDangle [5]).2.findSec 5 =
        some { secFromData secRecX with suiteRef := true, parentRef := none }) ∧
    ((buildSuite stEmpty.graph.suite [secRecX] []).1 = none ∧
      ((buildSuite stEmpty.graph.suite [secRecX] []).2.findSec 5).map
        (fun s => (s.parentRef, s.suiteRef)) = some (none, true)) := by
  constructor
  · exact c7_dangling_parent_linked_as_root.1 gDangle 5 (secFromData secRecX)
      (by decide) (by decide)
      (fun pid h => by cases h; decide)
  · exact c7_dangling_parent_linked_as_root.2 77 stEmpty.graph.suite secRecX
      (by decide) (by decide) (by decide) (by decide) (by decide)

/-! Claim C2. -/

theorem dlookup_filterKey (p : String → Bool) (d : RawDict) (k : String) :
    dlookup (d.filter (fun kv => p kv.1)) k = if p k then dlookup d k else none := by
  induction d with
  | nil => simp [dlookup]
  | cons kv t ih =>
    obtain ⟨k', v⟩ := kv
    by_cases hp : p k'
    · by_cases hk : k' = k
      · subst hk
        simp [List.filter, dlookup, hp]
      · simp [List.filter, dlookup, hp, hk, ih]
    · have hp' : p k' = false := by simpa using hp
      by_cases hk : k' = k
      · subst hk
        simp [List.filter, dlookup, hp', ih]
      · simp [List.filter, dlookup, hp', hk, ih]

theorem dlookup_dupdate (d1 d2 : RawDict) (k : String) :
    dlookup (dupdate d1 d2) k =
      match dlookup d2 k with
      | some v => some v
      | none => dlookup d1 k := by
  have happ : ∀ (a b : RawDict), dlookup (a ++ b) k =
      match dlookup a k with
      | some v => some v
      | none => dlookup b k := by
    intro a b
    induction a with
    | nil => simp [dlookup]
    | cons kv t ih =>
      obtain ⟨k', v⟩ := kv
      by_cases hk : k' = k <;> simp [dlookup, hk, ih]
  have hfilter : dlookup (d1.filter (fun kv => (dlookup d2 kv.1).isNone)) k =
      if (dlookup d2 k).isNone then dlookup d1 k else none :=
    dlookup_filterKey (fun key => (dlookup d2 key).isNone) d1 k
  rw [dupdate, happ, hfilter]
  cases h2 : dlookup d2 k with
  | none =>
    simp [h2]
    cases dlookup d1 k <;> rfl
  | some v => simp [h2]

theorem dlookup_mem_keys (d : RawDict) (k : String) (v : PyVal)
    (h : dlookup d k = some v) : k ∈ d.map Prod.fst := by
  induction d with
  | nil => simp [dlookup] at h
  | cons kv t ih =>
    obtain ⟨k', w⟩ := kv
    by_cases hk : k' = k
    · subst hk
      simp
    · simp [dlookup, hk] at h
      simp [ih h]

theorem dlookup_std_none_of_custom (c : PyCase) (k : String)
    (hk : strStartsWith k "custom_" = true) :
    dlookup (caseStdDict c) k = none := by
  have hne : ∀ nm, nm ∈ stdCaseKeys → nm ≠ k := by
    have hstd : ∀ x ∈ stdCaseKeys, strStartsWith x "custom_" = false := by decide
    intro nm hnm h
    subst h
    rw [hstd nm hnm] at hk
    exact Bool.false_ne_true hk
  simp [caseStdDict, dlookup,
    hne "id" (by decide), hne "suite_id" (by decide), hne "created_by" (by decide),
    hne "created_on" (by decide), hne "priority_id" (by decide),
    hne "template_id" (by decide), hne "title" (by decide), hne "type_id" (by decide),
    hne "updated_by" (by decide), hne "updated_on" (by decide),
    hne "is_deleted" (by decide), hne "display_order" (by decide),
    hne "estimate" (by decide), hne "estimate_forecast" (by decide),
    hne "section_id" (by decide), hne "milestone_id" (by decide),
    hne "refs" (by decide)]

/-- C2 counterexample: the record `dNoDel` omits the `is_deleted` key, is
still accepted by `from_data` (the source defaults it via
`data.get("is_deleted", 0)`), but `to_dict` emits `is_deleted = 0`, so the
round trip is not the identity on this accepted record. -/
theorem c2_counterexample :
    caseFromData dNoDel = some cNoDel ∧ ¬ dictEq (caseToDict cNoDel) dNoDel := by
  refine ⟨by decide, fun h => absurd (h "is_deleted") (by decide)⟩

/-- C2 amended: `to_dict (from_data record) == record` field-for-field
(custom fields re-flattened, timestamps re-encoded, is_deleted re-encoded)
for every record accepted by `from_data` whose keys are the standard
`to_dict` keys or `custom_`-prefixed, provided `is_deleted` is present with
value 0 or 1 and `display_order` is present — exactly the presence/value
conditions the counterexample shows are necessary. -/
theorem c2_case_roundtrip_amended (d : RawDict) (c : PyCase)
    (hfd : caseFromData d = some c)
    (hkeys : ∀ k ∈ d.map Prod.fst, k ∈ stdCaseKeys ∨ strStartsWith k "custom_" = true)
    (hdel : ∃ b : Int, dlookup d "is_deleted" = some (.vint b) ∧ (b = 0 ∨ b = 1))
    (hdo : (dlookup d "display_order").isSome = true) :
    dictEq (caseToDict c) d := by
  cases h1 : dlookup d "id" with
  | none => simp [caseFromData, h1] at hfd
  | some vid =>
  cases h2 : dlookup d "suite_id" with
  | none => simp [caseFromData, h1, h2] at hfd
  | some vsuite =>
  cases h3 : dlookup d "created_by" with
  | none => simp [caseFromData, h1, h2, h3] at hfd
  | some vcb =>
  cases h4 : dlookup d "created_on" with
  | none => simp [caseFromData, h1, h2, h3, h4] at hfd
  | some vcon =>
  cases h5 : dlookup d "priority_id" with
  | none => simp [caseFromData, h1, h2, h3, h4, h5] at hfd
  | some vpri =>
  cases h6 : dlookup d "template_id" with
  | none => simp [caseFromData, h1, h2, h3, h4, h5, h6] at hfd
  | some vtem =>
  cases h7 : dlookup d "title" with
  | none => simp [caseFromData, h1, h2, h3, h4, h5, h6, h7] at hfd
  | some vtit =>
  cases h8 : dlookup d "type_id" with
  | none => simp [caseFromData, h1, h2, h3, h4, h5, h6, h7, h8] at hfd
  | some vtyp =>
  cases h9 : dlookup d "updated_by" with
  | none => simp [caseFromData, h1, h2, h3, h4, h5, h6, h7, h8, h9] at hfd
  | some vub =>
  cases h10 : dlookup d "updated_on" with
  | none => simp [caseFromData, h1, h2, h3, h4, h5, h6, h7, h8, h9, h10] at hfd
  | some vuon =>
  cases h11 : dlookup d "estimate" with
  | none => simp [caseFromData, h1, h2, h3, h4, h5, h6, h7, h8, h9, h10, h11] at hfd
  | some vest =>
  cases h12 : dlookup d "estimate_forecast" with
  | none => simp [caseFromData, h1, h2, h3, h4, h5, h6, h7, h8, h9, h10, h11, h12] at hfd
  | some vef =>
  cases h13 : dlookup d "section_id" with
  | none =>
    simp [caseFromData, h1, h2, h3, h4, h5, h6, h7, h8, h9, h10, h11, h12, h13] at hfd
  | some vsec =>
  cases h14 : dlookup d "milestone_id" with
  | none =>
    simp [caseFromData, h1, h2, h3, h4, h5, h6, h7, h8, h9, h10, h11, h12, h13,
          h14] at hfd
  | some vmil =>
  cases h15 : dlookup d "refs" with
  | none =>
    simp [caseFromData, h1, h2, h3, h4, h5, h6, h7, h8, h9, h10, h11, h12, h13,
          h14, h15] at hfd
  | some vrefs =>
  cases vcon with
  | vnone =>
    simp [caseFromData, h1, h2, h3, h4, h5, h6, h7, h8, h9, h10, h11, h12, h13,
          h14, h15] at hfd
  | vstr s =>
    simp [caseFromData, h1, h2, h3, h4, h5, h6, h7, h8, h9, h10, h11, h12, h13,
          h14, h15] at hfd
  | vint con =>
  cases vuon with
  | vnone =>
    simp [caseFromData, h1, h2, h3, h4, h5, h6, h7, h8, h9, h10, h11, h12, h13,
          h14, h15] at hfd
  | vstr s =>
    simp [caseFromData, h1, h2, h3, h4, h5, h6, h7, h8, h9, h10, h11, h12, h13,
          h14, h15] at hfd
  | vint uon =>
  rw [caseFromData, h1, h2, h3, h4, h5, h6, h7, h8, h9, h10, h11, h12, h13, h14,
      h15] at hfd
  have hc := (Option.some.inj hfd).symm
  subst hc
  intro k
  obtain ⟨b, hb, hb01⟩ := hdel
  obtain ⟨w, hw⟩ := Option.isSome_iff_exists.mp hdo
  simp only [caseToDict, dlookup_dupdate]
  have hflt : dlookup (List.filter (fun kv => strStartsWith kv.1 "custom_") d) k =
      if strStartsWith k "custom_" = true then dlookup d k else none := by
    simpa using dlookup_filterKey (fun key => strStartsWith key "custom_") d k
  rw [hflt]
  by_cases hcust : strStartsWith k "custom_" = true
  · rw [if_pos hcust]
    cases hdk : dlookup d k with
    | some v => simp [hdk]
    | none =>
      simp only [hdk]
      simpa using dlookup_std_none_of_custom _ k hcust
  · have hcust' : strStartsWith k "custom_" = false := by simpa using hcust
    rw [if_neg hcust]
    by_cases hk1 : ("id" : String) = k
    · subst hk1
      simp [caseStdDict, dlookup, h1]
    by_cases hk2 : ("suite_id" : String) = k
    · subst hk2
      simp [caseStdDict, dlookup, h2]
    by_cases hk3 : ("created_by" : String) = k
    · subst hk3
      simp [caseStdDict, dlookup, h3]
    by_cases hk4 : ("created_on" : String) = k
    · subst hk4
      simp [caseStdDict, dlookup, h4]
    by_cases hk5 : ("priority_id" : String) = k
    · subst hk5
      simp [caseStdDict, dlookup, h5]
    by_cases hk6 : ("template_id" : String) = k
    · subst hk6
      simp [caseStdDict, dlookup, h6]
    by_cases hk7 : ("title" : String) = k
    · subst hk7
      simp [caseStdDict, dlookup, h7]
    by_cases hk8 : ("type_id" : String) = k
    · subst hk8
      simp [caseStdDict, dlookup, h8]
    by_cases hk9 : ("updated_by" : String) = k
    · subst hk9
      simp [caseStdDict, dlookup, h9]
    by_cases hk10 : ("updated_on" : String) = k
    · subst hk10
      simp [caseStdDict, dlookup, h10]
    by_cases hk11 : ("is_deleted" : String) = k
    · subst hk11
      rcases hb01 with hb0 | hb1
      · subst hb0
        simp [caseStdDict, dlookup, hb, truthy]
      · subst hb1
        simp [caseStdDict, dlookup, hb, truthy]
    by_cases hk12 : ("display_order" : String) = k
    · subst hk12
      simp [caseStdDict, dlookup, hw]
    by_cases hk13 : ("estimate" : String) = k
    · subst hk13
      simp [caseStdDict, dlookup, h11]
    by_cases hk14 : ("estimate_forecast" : String) = k
    · subst hk14
      simp [caseStdDict, dlookup, h12]
    by_cases hk15 : ("section_id" : String) = k
    · subst hk15
      simp [caseStdDict, dlookup, h13]
    by_cases hk16 : ("milestone_id" : String) = k
    · subst hk16
      simp [caseStdDict, dlookup, h14]
    by_cases hk17 : ("refs" : String) = k
    · subst hk17
      simp [caseStdDict, dlookup, h15]
    have hstd : dlookup (caseStdDict
        { case_id := vid, suite_id := vsuite, created_by := vcb, created_on := con,
          priority_id := vpri, template_id := vtem, title := vtit, type_id := vtyp,
          updated_by := vub, updated_on := uon,
          is_deleted := truthy ((dlookup d "is_deleted").getD (.vint 0)),
          custom_fields := d.filter (fun kv => strStartsWith kv.1 "custom_"),
          display_order := (dlookup d "display_order").getD .vnone,
          estimate := vest, estimate_forecast := vef, section_id := vsec,
          milestone_id := vmil, refs := vrefs }) k = none := by
      simp [caseStdDict, dlookup, hk1, hk2, hk3, hk4, hk5, hk6, hk7, hk8, hk9,
            hk10, hk11, hk12, hk13, hk14, hk15, hk16, hk17]
    rw [hstd]
    cases hdk : dlookup d k with
    | none => rfl
    | some v =>
      exfalso
      rcases hkeys k (dlookup_mem_keys d k v hdk) with hmem | hcu
      · simp [stdCaseKeys] at hmem
        rcases hmem with h | h | h | h | h | h | h | h | h | h | h | h | h | h | h | h | h <;>
          subst h <;> simp_all
      · rw [hcu] at hcust'
        simp at hcust'

/-- C2 witness: the complete record `dFull` round-trips. -/
theorem c2_witness :
    caseFromData dFull = some cFull ∧ dictEq (caseToDict cFull) dFull := by
  refine ⟨by decide, ?_⟩
  exact c2_case_roundtrip_amended dFull cFull (by decide) (by decide)
    ⟨0, by decide, Or.inl rfl⟩ (by decide)

/-! Claim C5. -/

/-- C5: over any handler state whose suite contains neither reserved path
and whose id counter is fresh, the first resolution of
`to_be_deleted_sections` issues exactly two create-section requests (one
per reserved path), producing the cases-holding section at
`__to_be_deleted__` and the sections-holding section at
`__to_be_deleted__/sections`, and caches the pair; every subsequent call on
the resulting state returns the cached pair with the state — graph, log,
everything — completely unchanged (zero create or lookup work). -/
theorem c5_reserved_pair_created_once (fuel : Nat) (st : SysState)
    (hfuel : 2 ≤ fuel)
    (hname : st.tbdName = "__to_be_deleted__")
    (hcache : st.cache = none)
    (hfind1 : sectionForPath fuel st.graph "__to_be_deleted__" = none)
    (hfind2 : sectionForPath fuel st.graph "__to_be_deleted__/sections" = none)
    (hfr1 : alookup st.graph.secStore st.nextId = none)
    (hfr1m : memKey st.graph.suite.sections st.nextId = false)
    (hfr1r : ∀ p ∈ st.graph.secStore, p.2.parentRef ≠ some st.nextId)
    (hfr2m : memKey st.graph.suite.sections (st.nextId + 1) = false) :
    toBeDeletedSections fuel st =
      (none, (st.nextId, st.nextId + 1),
       { tbdST2 st with cache := some (st.nextId, st.nextId + 1) }) ∧
    (tbdST2 st).log = st.log ++
      [.addSection st.graph.suite.project_id "__to_be_deleted__"
         st.graph.suite.suite_id none,
       .addSection st.graph.suite.project_id "sections"
         st.graph.suite.suite_id (some st.nextId)] ∧
    sectionPath fuel (tbdG2 st) st.nextId = "__to_be_deleted__" ∧
    sectionPath fuel (tbdG2 st) (st.nextId + 1) = "__to_be_deleted__/sections" ∧
    toBeDeletedSections fuel
        { tbdST2 st with cache := some (st.nextId, st.nextId + 1) } =
      (none, (st.nextId, st.nextId + 1),
       { tbdST2 st with cache := some (st.nextId, st.nextId + 1) }) := by
  obtain ⟨f, rfl⟩ : ∃ f, fuel = f + 2 := ⟨fuel - 2, by omega⟩
  have hsplit1 : rsplit1 "__to_be_deleted__" = (none, "__to_be_deleted__") := by
    decide
  have hsplit2 : rsplit1 "__to_be_deleted__/sections" =
      (some "__to_be_deleted__", "sections") := by decide
  have step1 : createNewSectionForPath (f + 2) st "__to_be_deleted__" =
      (none, st.nextId, tbdST1 st) := by
    simp [createNewSectionForPath, hsplit1, sectionLink, Graph.setSec,
          Graph.findSec, alookup_aset_self, aset_aset_same, addKey, hfr1m,
          tbdST1, tbdG1, tbdSec1]
  have htrans : ∀ (sid : Nat), sid ≠ st.nextId → ∀ (fl : Nat),
      sectionPathNames fl (tbdG1 st) sid = sectionPathNames fl st.graph sid := by
    intro sid hsid fl
    exact pathNames_fresh st.graph (tbdG1 st) st.nextId
      (tbdSec1 st.graph.suite.suite_id st.nextId) (by simp [tbdG1]) hfr1 hfr1r
      fl sid hsid
  have hne1 : ∀ sid ∈ st.graph.suite.sections, sid ≠ st.nextId := by
    intro sid hs heq
    subst heq
    exact (memKey_eq_false_iff _ _).mp hfr1m hs
  have hold1 : ∀ sid ∈ st.graph.suite.sections,
      sectionPath (f + 2) (tbdG1 st) sid = sectionPath (f + 2) st.graph sid := by
    intro sid hs
    simp [sectionPath, htrans sid (hne1 sid hs)]
  have hpathnew : sectionPath (f + 2) (tbdG1 st) st.nextId =
      "__to_be_deleted__" := by
    simp [sectionPath, sectionPathNames, tbdG1, Graph.findSec,
          alookup_aset_self, tbdSec1, joinSlash]
  have hsecs1 : (tbdG1 st).suite.sections =
      st.graph.suite.sections ++ [st.nextId] := by
    simp [tbdG1]
  have hfind1G1 : sectionForPath (f + 2) (tbdG1 st) "__to_be_deleted__" =
      some st.nextId := by
    rw [sectionForPath, hsecs1, List.find?_append]
    have hfirst : List.find?
        (fun sid => sectionPath (f + 2) (tbdG1 st) sid == "__to_be_deleted__")
        st.graph.suite.sections = none := by
      apply List.find?_eq_none.mpr
      intro x hx
      have hbase := List.find?_eq_none.mp hfind1 x hx
      simp only [hold1 x hx]
      exact hbase
    rw [hfirst]
    simp [hpathnew]
  have hfind2G1 : sectionForPath (f + 2) (tbdG1 st)
      "__to_be_deleted__/sections" = none := by
    rw [sectionForPath, hsecs1, List.find?_append]
    have hfirst : List.find?
        (fun sid =>
          sectionPath (f + 2) (tbdG1 st) sid == "__to_be_deleted__/sections")
        st.graph.suite.sections = none := by
      apply List.find?_eq_none.mpr
      intro x hx
      have hbase := List.find?_eq_none.mp hfind2 x hx
      simp only [hold1 x hx]
      exact hbase
    rw [hfirst]
    simp [hpathnew]
  have hfind1G1e := hfind1G1
  simp only [tbdG1, tbdSec1] at hfind1G1e
  have step2 : createNewSectionForPath (f + 2) (tbdST1 st)
      "__to_be_deleted__/sections" = (none, st.nextId + 1, tbdST2 st) := by
    simp [createNewSectionForPath, hsplit2, tbdST1, tbdG1, hfind1G1e,
          sectionLink, Graph.setSec, Graph.findSec, alookup_aset_self,
          alookup_aset_ne, aset_aset_same, addKey, memKey_append, hfr2m,
          tbdST2, tbdG2, tbdSec1, tbdSec1c, tbdSec2, memKey]
  have happ2 : ("__to_be_deleted__" ++ "/sections" : String) =
      "__to_be_deleted__/sections" := by decide
  have htg : (tbdST1 st).graph = tbdG1 st := rfl
  refine ⟨?_, ?_, ?_, ?_, ?_⟩
  · simp only [toBeDeletedSections, hcache, hname, happ2, hfind1, step1, htg,
               hfind2G1, step2]
  · simp [tbdST2]
  · simp [sectionPath, sectionPathNames, tbdG2, Graph.findSec,
          alookup_aset_self, tbdSec1c, tbdSec1, joinSlash]
  · have hlk2 : alookup (tbdG2 st).secStore (st.nextId + 1) =
        some (tbdSec2 st.graph.suite.suite_id st.nextId) := by
      rw [show (tbdG2 st).secStore = aset (aset (aset st.graph.secStore st.nextId
          (tbdSec1 st.graph.suite.suite_id st.nextId))
        (st.nextId + 1) (tbdSec2 st.graph.suite.suite_id st.nextId))
        st.nextId (tbdSec1c st.graph.suite.suite_id st.nextId) from rfl]
      rw [alookup_aset_ne _ _ _ _ (by omega)]
      exact alookup_aset_self _ _ _
    have hlk1 : alookup (tbdG2 st).secStore st.nextId =
        some (tbdSec1c st.graph.suite.suite_id st.nextId) := by
      rw [show (tbdG2 st).secStore = aset (aset (aset st.graph.secStore st.nextId
          (tbdSec1 st.graph.suite.suite_id st.nextId))
        (st.nextId + 1) (tbdSec2 st.graph.suite.suite_id st.nextId))
        st.nextId (tbdSec1c st.graph.suite.suite_id st.nextId) from rfl]
      exact alookup_aset_self _ _ _
    have hnames : sectionPathNames (f + 2) (tbdG2 st) (st.nextId + 1) =
        ["sections", "__to_be_deleted__"] := by
      simp [sectionPathNames, Graph.findSec, hlk2, hlk1, tbdSec2, tbdSec1c,
            tbdSec1]
    rw [sectionPath, hnames]
    decide
  · simp [toBeDeletedSections]

/-- C5 witness: first use over the A/B/C suite (ids 50 and 51 created, one
request per reserved path, pair cached), second use a strict no-op. -/
theorem c5_witness :
    toBeDeletedSections 20 stABC =
      (none, (50, 51), { tbdST2 stABC with cache := some (50, 51) }) ∧
    (tbdST2 stABC).log = stABC.log ++
      [.addSection 7 "__to_be_deleted__" 100 none,
       .addSection 7 "sections" 100 (some 50)] ∧
    sectionPath 20 (tbdG2 stABC) 50 = "__to_be_deleted__" ∧
    sectionPath 20 (tbdG2 stABC) 51 = "__to_be_deleted__/sections" ∧
    toBeDeletedSections 20 { tbdST2 stABC with cache := some (50, 51) } =
      (none, (50, 51), { tbdST2 stABC with cache := some (50, 51) }) := by
  have h := c5_reserved_pair_created_once 20 stABC (by omega) rfl rfl
    (by decide) (by decide) (by decide) (by decide) (by decide) (by decide)
  exact h

end TestRail
